import Mathlib

/-!
Shallow embedding of `src/Plugins/AutoSharder.ts` from discord-hybrid-sharding:
the `AutoResharderClusterClient` (the per-worker Reporter) and the
`AutoResharderManager` (the coordinator-side Aggregator / Decision Engine).
Pure data and control flow are translated directly; JavaScript numbers that the
code only ever compares, adds and ceil-divides are modelled as `Nat`/`Int`,
timers as an `Option` holding the armed period, thrown exceptions as explicit
error values, and the awaited external rescale executor as a boolean outcome
parameter (resolved / rejected).
-/

namespace AutoSharder

/-! ## Reporter (client) side data model -/

/-- A JavaScript runtime value as inspected by the `typeof v === 'number'`
checks in `sendData`: either a number (modelled as `Int`; the claims only
involve integral comparisons against `0`) or any non-number value. -/
inductive JSVal where
  | num (n : Int)
  | notNum
deriving DecidableEq, Repr

/-- One entry of `AutoResharderSendData.shardData` before shape validation:
`{ shardId: number; guildCount: number }` as produced by the user-supplied
`sendDataFunction`, whose fields may hold anything at runtime. -/
structure RawShardData where
  shardId : JSVal
  guildCount : JSVal
deriving DecidableEq, Repr

/-- The payload produced by `sendDataFunction` before validation
(`{ clusterId, shardData }`); the `typeof sendData !== 'object'` and
`Array.isArray(sendData.shardData)` checks of the source are carried by this
type itself (a structure with a list field), which the claims never exercise. -/
structure RawSendData where
  clusterId : JSVal
  shardData : List RawShardData
deriving DecidableEq, Repr

/-- The `messageType` enum restricted to the member this plugin uses
(`CLIENT_AUTORESHARDER_SENDDATA`) plus a stand-in for every other member. -/
inductive messageType where
  | CLIENT_AUTORESHARDER_SENDDATA
  | otherMember
deriving DecidableEq, Repr

/-- The tagged wire message `{ _type: messageType, data: AutoResharderSendData }`
built in `sendData` (interface `sendDataMessage`; `msgType` embeds the `_type`
field). -/
structure SentMessage where
  msgType : messageType
  data : RawSendData
deriving DecidableEq, Repr

/-- The exceptions the client class throws, in place of the source strings:
`notRunning` for `new Error("Not running!")`, `alreadyStarted` for
`new Error("Already started")`, `invalidSendData` for the `SyntaxError` on a
malformed report, `invalidIntervalOption` for the `SyntaxError` on
`sendDataIntervalMS < 1000`. -/
inductive ClientError where
  | notRunning
  | alreadyStarted
  | invalidSendData
  | invalidIntervalOption
deriving DecidableEq, Repr

/-- `AutoResharderClientOptions` with the two data fields; the
`sendDataFunction` member is modelled by passing the `RawSendData` it produces
directly to the functions that would invoke it. -/
structure ClientOptions where
  sendDataIntervalMS : Nat
  debug : Bool
deriving DecidableEq, Repr

/-- A `Partial<AutoResharderClientOptions>` override (each field optionally
present), as accepted by the constructor, `start` and `reStart`. -/
structure ClientOptionsOverride where
  sendDataIntervalMS : Option Nat := none
  debug : Option Bool := none
deriving DecidableEq, Repr

/-- The class-initializer defaults of `AutoResharderClusterClient.options`
(`sendDataIntervalMS: 60e3, debug: false`). -/
def defaultClientOptions : ClientOptions :=
  { sendDataIntervalMS := 60000, debug := false }

/-- The object-spread merge `{ ...this.options, ...(options || {}) }`: a field
present in the override wins, otherwise the current value is kept. -/
def mergeClientOptions (cur : ClientOptions) (ov : ClientOptionsOverride) : ClientOptions :=
  { sendDataIntervalMS := ov.sendDataIntervalMS.getD cur.sendDataIntervalMS,
    debug := ov.debug.getD cur.debug }

/-- `AutoResharderClusterClient.validate`: the `typeof`/`Array.isArray` checks
on the constructor-supplied cluster client and on `sendDataFunction` are
vacuously satisfied under the typed model, leaving the one data check
`sendDataIntervalMS < 1000`. -/
def clientValidate (o : ClientOptions) : Option ClientError :=
  if o.sendDataIntervalMS < 1000 then some .invalidIntervalOption else none

/-- The rejection condition of `sendData` on the produced payload, exactly the
disjunction at source lines 205-217: `clusterId` not a number or negative, or
some entry whose `guildCount` is not a number or negative, or whose `shardId`
is not a number or negative. -/
def rawSendDataInvalid (d : RawSendData) : Bool :=
  (match d.clusterId with
   | .num n => decide (n < 0)
   | .notNum => true) ||
  d.shardData.any (fun v =>
    (match v.guildCount with
     | .num g => decide (g < 0)
     | .notNum => true) ||
    (match v.shardId with
     | .num i => decide (i < 0)
     | .notNum => true))

/-- `AutoResharderClusterClient.sendData`: re-validate the options, reject a
malformed payload with the `SyntaxError`, otherwise deliver the payload tagged
`CLIENT_AUTORESHARDER_SENDDATA` through `clusterClient.send`. -/
def clientSendData (o : ClientOptions) (raw : RawSendData) : Except ClientError SentMessage :=
  match clientValidate o with
  | some e => .error e
  | none =>
    if rawSendDataInvalid raw then .error .invalidSendData
    else .ok { msgType := .CLIENT_AUTORESHARDER_SENDDATA, data := raw }

/-- The mutable state of an `AutoResharderClusterClient`: its merged options,
the repeating timer (`some t` models an armed `setInterval` handle with period
`t`, `none` a cleared one) and the `started` field. The source declares
`private started = false` and contains no assignment to it anywhere else in the
class. -/
structure ClientState where
  options : ClientOptions
  interval : Option Nat
  started : Bool
deriving DecidableEq, Repr

/-- A placeholder payload for calls whose `executeSendData` argument is
`false`, where `sendDataFunction` is not invoked. -/
def emptyRaw : RawSendData := { clusterId := .num 0, shardData := [] }

/-- `AutoResharderClusterClient.initialize(executeSendData)`: clear any armed
timer, perform (and await) one immediate send when `executeSendData` is true
— a rejected immediate send propagates and leaves the timer cleared — then arm
`setInterval(() => this.sendData(), sendDataIntervalMS)` and resolve `true`.
No assignment to `started` occurs. -/
def initTimer (s : ClientState) (executeSendData : Bool) (raw : RawSendData) :
    ClientState × Except ClientError Bool :=
  let s1 : ClientState := { s with interval := none }
  if executeSendData then
    match clientSendData s1.options raw with
    | .error e => (s1, .error e)
    | .ok _ => ({ s1 with interval := some s1.options.sendDataIntervalMS }, .ok true)
  else
    ({ s1 with interval := some s1.options.sendDataIntervalMS }, .ok true)

/-- The `AutoResharderClusterClient` constructor: spread the override onto the
defaults, `validate()` (throwing on a bad interval), then `initialize()` with
`executeSendData` at its default `false`. -/
def clientConstruct (ov : ClientOptionsOverride) : Except ClientError ClientState :=
  let o := mergeClientOptions defaultClientOptions ov
  match clientValidate o with
  | some e => .error e
  | none => .ok (initTimer { options := o, interval := none, started := false } false emptyRaw).1

/-- `AutoResharderClusterClient.stop`: first clear the interval if one is
armed, then throw `Error("Not running!")` whenever `started === false`,
otherwise return `true`. -/
def clientStop (s : ClientState) : ClientState × Except ClientError Bool :=
  let s1 : ClientState := { s with interval := none }
  if s1.started = false then (s1, .error .notRunning) else (s1, .ok true)

/-- `AutoResharderClusterClient.start(newOptions?, executeSendData)`: throw
`Error("Already started")` when `started === true`, otherwise spread the
override onto the options and run `initialize(executeSendData)`. -/
def clientStart (s : ClientState) (ov : ClientOptionsOverride) (executeSendData : Bool)
    (raw : RawSendData) : ClientState × Except ClientError Bool :=
  if s.started = true then (s, .error .alreadyStarted)
  else initTimer { s with options := mergeClientOptions s.options ov } executeSendData raw

/-- `AutoResharderClusterClient.reStart(newOptions?, executeSendData)`:
unconditionally clear any armed timer, spread the override onto the options and
run `initialize(executeSendData)`. -/
def clientReStart (s : ClientState) (ov : ClientOptionsOverride) (executeSendData : Bool)
    (raw : RawSendData) : ClientState × Except ClientError Bool :=
  let s1 : ClientState := { s with interval := none }
  initTimer { s1 with options := mergeClientOptions s1.options ov } executeSendData raw

/-! ## Manager (coordinator) side data model -/

/-- One validated `{ shardId, guildCount }` entry as the manager consumes it:
payloads stored in `clusterDatas` are cast to `AutoResharderSendData`, whose
declared fields are numbers; reports produced through the client pass its
non-negativity checks, so both fields are modelled as `Nat`. -/
structure ShardData where
  shardId : Nat
  guildCount : Nat
deriving DecidableEq, Repr

/-- `AutoResharderSendData` as stored in the coordinator report table:
`{ clusterId: number, shardData: ShardData[] }`. -/
structure AutoResharderSendData where
  clusterId : Nat
  shardData : List ShardData
deriving DecidableEq, Repr

/-- `ShardsPerCluster: number | 'useManagerOption'`; `useManagerOption` is the
only string the declared type admits. -/
inductive ShardsPerClusterSetting where
  | useManagerOption
  | count (n : Nat)
deriving DecidableEq, Repr

/-- `MinGuildsPerShard: 'auto' | number`; `auto` is the only string the
declared type admits. -/
inductive MinGuildsSetting where
  | auto
  | count (n : Nat)
deriving DecidableEq, Repr

/-- `restartOptions.restartMode: 'gracefulSwitch' | 'rolling'`. -/
inductive RestartMode where
  | gracefulSwitch
  | rolling
deriving DecidableEq, Repr

/-- `AutoResharderManagerOptions.restartOptions`, validated nowhere and passed
through opaquely to `recluster.start`. -/
structure RestartOptions where
  restartMode : Option RestartMode
  delay : Option Nat
  timeout : Option Int
deriving DecidableEq, Repr

/-- `AutoResharderManagerOptions`. -/
structure ManagerOptions where
  ShardsPerCluster : ShardsPerClusterSetting
  MinGuildsPerShard : MinGuildsSetting
  MaxGuildsPerShard : Nat
  restartOptions : RestartOptions
  debug : Bool
deriving DecidableEq, Repr

/-- The class-initializer defaults of `AutoResharderManager.options`. -/
def defaultManagerOptions : ManagerOptions :=
  { ShardsPerCluster := .useManagerOption,
    MinGuildsPerShard := .count 800,
    MaxGuildsPerShard := 1750,
    restartOptions :=
      { restartMode := some .gracefulSwitch, delay := some 7000, timeout := some (-1) },
    debug := true }

/-- The exceptions the manager class throws: the three `SyntaxError`s of
`validate` on the respective option, the two `RangeError`s (`recluster` plugin
missing; `MinGuildsPerShard` set to `auto` while `MaxGuildsPerShard <= 2000`)
and the `RangeError` thrown by `checkReCluster` on a non-default shard list. -/
inductive ManagerError where
  | shardsPerClusterOption
  | minGuildsOption
  | maxGuildsOption
  | reclusterMissing
  | autoNeedsHigherMax
  | unsupportedTopology
deriving DecidableEq, Repr

/-- `AutoResharderManager.validate`, statement by statement in source order;
a throw aborts the remaining checks, so the result is the first failing
check. The `typeof x === 'string'` / `typeof x === 'number'` dichotomy maps
onto the two constructors of each setting type, and `MaxGuildsPerShard` is
always a number under the typed model. Note that the two `else if` branches
run whenever the `if` before them did not throw — in particular they run on
the sentinel strings `useManagerOption` and `auto` themselves, for which
`typeof !== 'number'` holds. -/
def managerValidate (o : ManagerOptions) (hasRecluster : Bool) : Option ManagerError :=
  -- `typeof ShardsPerCluster === 'string' && ShardsPerCluster !== 'useManagerOption'`:
  -- false for `useManagerOption` (it is the sentinel) and false for a number.
  if (match o.ShardsPerCluster with
      | .useManagerOption => false
      | .count _ => false) then some .shardsPerClusterOption
  -- `else if (typeof ShardsPerCluster !== 'number' || ShardsPerCluster < 1)`
  else if (match o.ShardsPerCluster with
           | .useManagerOption => true
           | .count n => decide (n < 1)) then some .shardsPerClusterOption
  -- `if (typeof MinGuildsPerShard === 'string' && MinGuildsPerShard !== 'auto')`
  else if (match o.MinGuildsPerShard with
           | .auto => false
           | .count _ => false) then some .minGuildsOption
  -- `else if (typeof MinGuildsPerShard !== 'number' || MinGuildsPerShard < 500)`
  else if (match o.MinGuildsPerShard with
           | .auto => true
           | .count n => decide (n < 500)) then some .minGuildsOption
  -- `if (typeof MaxGuildsPerShard !== 'number' || (typeof MinGuildsPerShard === 'number'
  --      && MaxGuildsPerShard <= MinGuildsPerShard) || MaxGuildsPerShard > 2500)`
  else if ((match o.MinGuildsPerShard with
            | .auto => false
            | .count m => decide (o.MaxGuildsPerShard ≤ m)) ||
           decide (o.MaxGuildsPerShard > 2500)) then some .maxGuildsOption
  -- `if (typeof this.manager.recluster === 'undefined')`
  else if !hasRecluster then some .reclusterMissing
  -- `if (MinGuildsPerShard === 'auto' && MaxGuildsPerShard <= 2000)`
  else if (match o.MinGuildsPerShard with
           | .auto => decide (o.MaxGuildsPerShard ≤ 2000)
           | .count _ => false) then some .autoNeedsHigherMax
  else none

/-! ## Aggregator: the message handler and report table -/

/-- An inbound cluster `message` event as the handler at source lines 276-292
classifies it: a well-tagged payload (`_type === CLIENT_AUTORESHARDER_SENDDATA`
after unwrapping `raw`), or anything else (non-object, or any other tag),
which is ignored. -/
inductive ClusterMessage where
  | report (d : AutoResharderSendData)
  | otherMessage
deriving DecidableEq, Repr

/-- The table update at source lines 282-284: `findIndex` on `clusterId`; if
the index is negative `push` the payload, otherwise overwrite the found slot. -/
def upsertReport (datas : List AutoResharderSendData) (d : AutoResharderSendData) :
    List AutoResharderSendData :=
  match datas.findIdx? (fun v => v.clusterId == d.clusterId) with
  | none => datas ++ [d]
  | some i => datas.set i d

/-- One step of the `message` listener acting on `clusterDatas` (the
subsequent `checkReCluster` call reads, never writes, the table). -/
def handleMessage (datas : List AutoResharderSendData) :
    ClusterMessage → List AutoResharderSendData
  | .report d => upsertReport datas d
  | .otherMessage => datas

/-- The report table after a sequence of inbound messages, starting from the
empty `clusterDatas` array of a fresh manager. -/
def processMessages (msgs : List ClusterMessage) : List AutoResharderSendData :=
  msgs.foldl handleMessage []

/-- Specification helper: the payload of the most recently received
well-tagged report carrying `clusterId = c`, if any. -/
def lastReportOf (c : Nat) : List ClusterMessage → Option AutoResharderSendData
  | [] => none
  | m :: ms =>
    match lastReportOf c ms with
    | some d => some d
    | none =>
      match m with
      | .report d => if d.clusterId = c then some d else none
      | .otherMessage => none

/-! ## Decision Engine: `checkReCluster` -/

/-- `Math.ceil(a / b)` on non-negative integer operands (exact as long as the
operands stay far below `2^53`, which every shard or guild count does). -/
def jsCeilDiv (a b : Nat) : Nat := (a + b - 1) / b

/-- `Math.ceil(t * 1.2)` for a non-negative integer `t`: the double product
`t * 1.2` differs from the rational `6*t/5` by well under the `0.2` gap that
separates `6*t/5` from the integers when `5` does not divide `6*t`, and when
`5` divides `6*t` the product rounds to a double at or just below that integer
— either way `Math.ceil` lands on `⌈6*t/5⌉` for every fleet-sized `t`. -/
def ceilTimes1p2 (t : Nat) : Nat := jsCeilDiv (6 * t) 5

/-- The summed load of source line 339-341:
`clusterDatas.flatMap(v => v.shardData).reduce((a, b) =>
(!isNaN(b?.guildCount) ? b?.guildCount : 0) + (a || 0), 0)`. A `Nat`
`guildCount` is never `NaN`, so the conditional yields `b.guildCount`, and
`a || 0` equals `a` (both are `0` when `a` is the falsy `0`). -/
def sumGuilds (datas : List AutoResharderSendData) : Nat :=
  (datas.flatMap (·.shardData)).foldl (fun a b => b.guildCount + a) 0

/-- The `newShardsCount` of source lines 335-343: the externally fetched
recommended count when `MinGuildsPerShard` is `auto` (the awaited
`fetchRecommendedShards(token)` result enters as the `recommended` argument),
otherwise the summed load ceil-divided by `MinGuildsPerShard`. -/
def newShardsCountOf (o : ManagerOptions) (datas : List AutoResharderSendData)
    (recommended : Nat) : Nat :=
  match o.MinGuildsPerShard with
  | .auto => recommended
  | .count m => jsCeilDiv (sumGuilds datas) m

/-- The `realShardCount` of source lines 344-345: keep the computed count when
it exceeds the current total, otherwise grow the current total by 20 percent,
rounded up. -/
def realShardCountOf (newShardsCount totalShards : Nat) : Nat :=
  if newShardsCount > totalShards then newShardsCount else ceilTimes1p2 totalShards

/-- The mutable state and manager fields `checkReCluster` reads:
`clusterDatas` and `isReClustering` are the coordinator-owned state,
`clusterListLength` is `manager.clusterList.length`, `totalShards`,
`shardList`, `shardsPerClusters` (possibly unset) and `totalClusters` are the
fleet configuration, and `hasRecluster` is whether `manager.recluster` is
defined. -/
structure ManagerState where
  clusterDatas : List AutoResharderSendData
  isReClustering : Bool
  clusterListLength : Nat
  totalShards : Nat
  shardList : List Nat
  shardsPerClusters : Option Nat
  totalClusters : Nat
  hasRecluster : Bool
deriving DecidableEq, Repr

/-- The `finalShardsPerCluster` of source lines 358-362: the configured number,
or for the `useManagerOption` sentinel the JS expression
`manager.shardsPerClusters || ceil(shardList.length / totalClusters)` — note
`||` falls through to the ceiling both when `shardsPerClusters` is `undefined`
and when it is the falsy number `0`. -/
def finalShardsPerClusterOf (o : ManagerOptions) (s : ManagerState) : Nat :=
  match o.ShardsPerCluster with
  | .useManagerOption =>
    match s.shardsPerClusters with
    | some n => if n = 0 then jsCeilDiv s.shardList.length s.totalClusters else n
    | none => jsCeilDiv s.shardList.length s.totalClusters
  | .count n => n

/-- The argument object handed to `manager.recluster.start` at source lines
364-370: the spread `restartOptions` plus the recomputed topology. -/
structure RescaleRequest where
  restartOptions : RestartOptions
  shardsPerClusters : Nat
  totalShards : Nat
  totalClusters : Nat
  shardList : List Nat
deriving DecidableEq, Repr

/-- How one `checkReCluster` call ends: the early return on incomplete data,
the `RangeError` on the shard-list comparison, the quiet end of a sweep with
no shard at or over `MaxGuildsPerShard`, the `RangeError` when `recluster` is
missing, or an executor invocation with its request and whether the awaited
call resolved. -/
inductive CycleResult where
  | notAllData
  | unsupportedTopology
  | noShardOverMax
  | reclusterMissing
  | executed (req : RescaleRequest) (execResolved : Bool)
deriving DecidableEq, Repr

/-- A `checkReCluster` outcome: its result, the value `isReClustering` holds
while the `recluster.start` call is awaited (when no call is made, the value it
simply kept), and the value it holds after the call settles or the cycle
unwinds. -/
structure CycleOutcome where
  result : CycleResult
  flagDuringCall : Bool
  flagAfter : Bool
deriving DecidableEq, Repr

/-- The number of `recluster.start` invocations a cycle result accounts for. -/
def executorCalls : CycleResult → Nat
  | .executed _ _ => 1
  | _ => 0

/-- Source lines 317-378, the part of `checkReCluster` below the shard-list
comparison: find a report with a shard at or over `MaxGuildsPerShard`; if none
the cycle ends with no action; otherwise throw when `recluster` is missing,
set `isReClustering`, compute the new counts and topology, await
`recluster.start` (its settlement entering as `execResolved`), and clear
`isReClustering` — an assignment placed after the `await` with no
`try`/`finally`, so it only runs when the call resolved. -/
def thresholdAndExecute (s : ManagerState) (o : ManagerOptions) (recommended : Nat)
    (execResolved : Bool) : CycleOutcome :=
  match s.clusterDatas.find?
      (fun v => v.shardData.any (fun x => decide (x.guildCount ≥ o.MaxGuildsPerShard))) with
  | none =>
    { result := .noShardOverMax, flagDuringCall := s.isReClustering,
      flagAfter := s.isReClustering }
  | some _ =>
    if !s.hasRecluster then
      { result := .reclusterMissing, flagDuringCall := s.isReClustering,
        flagAfter := s.isReClustering }
    else
      let realCount := realShardCountOf (newShardsCountOf o s.clusterDatas recommended)
        s.totalShards
      let spc := finalShardsPerClusterOf o s
      let req : RescaleRequest :=
        { restartOptions := o.restartOptions, shardsPerClusters := spc,
          totalShards := realCount, totalClusters := jsCeilDiv realCount spc,
          shardList := List.range realCount }
      { result := .executed req execResolved,
        flagDuringCall := true,
        flagAfter := if execResolved then false else true }

/-- The comparison at source line 310:
`Array.from(Array(totalShards).keys()) != manager.shardList`. JavaScript loose
inequality between two operands that are both objects compares references, and
`Array.from` allocates a fresh array on every call, so the fresh key array is
never the same object as `manager.shardList` and the comparison is true for
every input — including the default contiguous shard list whose elements are
exactly `0 .. totalShards-1`. -/
def freshKeysArrayNotEqualShardList (_totalShards : Nat) (_shardList : List Nat) : Bool :=
  true

/-- `AutoResharderManager.checkReCluster` as written: the completeness guard
(early return while `clusterDatas.length <= clusterList.length`), then the
in-progress check — whose body is only a debug log, with no return, so control
always continues past it — then the shard-list comparison (throwing the
`RangeError` when it holds), then the threshold scan and execution. -/
def checkReCluster (s : ManagerState) (o : ManagerOptions) (recommended : Nat)
    (execResolved : Bool) : CycleOutcome :=
  if s.clusterDatas.length ≤ s.clusterListLength then
    { result := .notAllData, flagDuringCall := s.isReClustering, flagAfter := s.isReClustering }
  else if freshKeysArrayNotEqualShardList s.totalShards s.shardList then
    { result := .unsupportedTopology, flagDuringCall := s.isReClustering,
      flagAfter := s.isReClustering }
  else
    thresholdAndExecute s o recommended execResolved

/-- `checkReCluster` with the shard-list comparison of line 310 performed
element-wise — the comparison the surrounding error message (blaming a custom
`shardList`) intends; the as-written reference comparison is reported
separately as a defect. This variant exposes the behaviour of the in-progress
check and of the execution step that the reference comparison otherwise makes
unreachable. -/
def checkReClusterIntended (s : ManagerState) (o : ManagerOptions) (recommended : Nat)
    (execResolved : Bool) : CycleOutcome :=
  if s.clusterDatas.length ≤ s.clusterListLength then
    { result := .notAllData, flagDuringCall := s.isReClustering, flagAfter := s.isReClustering }
  else if s.shardList = List.range s.totalShards then
    thresholdAndExecute s o recommended execResolved
  else
    { result := .unsupportedTopology, flagDuringCall := s.isReClustering,
      flagAfter := s.isReClustering }

/-! ## Helper lemmas -/

theorem jsCeilDiv_le_iff {b : Nat} (hb : 0 < b) (a k : Nat) :
    jsCeilDiv a b ≤ k ↔ a ≤ k * b := by
  unfold jsCeilDiv
  rw [Nat.div_le_iff_le_mul_add_pred hb]
  rw [Nat.mul_comm b k]
  generalize k * b = K
  omega

theorem jsCeilDiv_spec {b : Nat} (hb : 0 < b) (a : Nat) :
    a ≤ jsCeilDiv a b * b ∧ ∀ k, a ≤ k * b → jsCeilDiv a b ≤ k :=
  ⟨(jsCeilDiv_le_iff hb a (jsCeilDiv a b)).mp (Nat.le_refl _),
   fun k hk => (jsCeilDiv_le_iff hb a k).mpr hk⟩

@[simp] theorem upsertReport_nil (d : AutoResharderSendData) :
    upsertReport [] d = [d] := rfl

theorem upsertReport_cons (v : AutoResharderSendData) (vs : List AutoResharderSendData)
    (d : AutoResharderSendData) :
    upsertReport (v :: vs) d =
      if v.clusterId == d.clusterId then d :: vs else v :: upsertReport vs d := by
  unfold upsertReport
  rw [List.findIdx?_cons]
  by_cases h : v.clusterId == d.clusterId
  · simp [h]
  · simp only [h, if_false, Bool.false_eq_true]
    rw [List.findIdx?_succ]
    cases vs.findIdx? (fun w => w.clusterId == d.clusterId) <;> simp

theorem map_clusterId_upsertReport (t : List AutoResharderSendData)
    (d : AutoResharderSendData) :
    (upsertReport t d).map (·.clusterId) =
      if d.clusterId ∈ t.map (·.clusterId) then t.map (·.clusterId)
      else t.map (·.clusterId) ++ [d.clusterId] := by
  induction t with
  | nil => simp
  | cons v vs ih =>
    rw [upsertReport_cons]
    by_cases h : v.clusterId = d.clusterId
    · simp [h]
    · have hbeq : (v.clusterId == d.clusterId) = false := by
        simp [h]
      simp only [hbeq, if_false, Bool.false_eq_true, List.map_cons, ih]
      by_cases hmem : d.clusterId ∈ vs.map (·.clusterId)
      · simp [hmem, List.mem_cons, h, Ne.symm h]
      · simp [hmem, List.mem_cons, h, Ne.symm h]

theorem nodup_map_clusterId_upsertReport (t : List AutoResharderSendData)
    (d : AutoResharderSendData) (h : (t.map (·.clusterId)).Nodup) :
    ((upsertReport t d).map (·.clusterId)).Nodup := by
  rw [map_clusterId_upsertReport]
  by_cases hmem : d.clusterId ∈ t.map (·.clusterId)
  · simpa [hmem]
  · rw [if_neg hmem]
    refine List.Nodup.append h (List.nodup_singleton _) ?_
    intro a ha hb
    rw [List.mem_singleton] at hb
    subst hb
    exact hmem ha

theorem find?_upsertReport_self (t : List AutoResharderSendData)
    (d : AutoResharderSendData) :
    (upsertReport t d).find? (fun v => v.clusterId == d.clusterId) = some d := by
  induction t with
  | nil => simp
  | cons v vs ih =>
    rw [upsertReport_cons]
    by_cases h : v.clusterId == d.clusterId
    · simp [h]
    · simp [h, List.find?_cons, ih]

theorem find?_upsertReport_other (t : List AutoResharderSendData)
    (d : AutoResharderSendData) (c : Nat) (hc : c ≠ d.clusterId) :
    (upsertReport t d).find? (fun v => v.clusterId == c) =
      t.find? (fun v => v.clusterId == c) := by
  induction t with
  | nil => simp [ne_comm.mp hc]
  | cons v vs ih =>
    rw [upsertReport_cons]
    by_cases h : v.clusterId == d.clusterId
    · have hv : v.clusterId = d.clusterId := by simpa using h
      have hvc : (v.clusterId == c) = false := by simp [hv, ne_comm.mp hc]
      have hdc : (d.clusterId == c) = false := by simp [ne_comm.mp hc]
      simp [h, List.find?_cons, hvc, hdc]
    · simp only [h, if_false, Bool.false_eq_true]
      by_cases hvc : v.clusterId == c
      · simp [List.find?_cons, hvc]
      · simp [List.find?_cons, hvc, ih]

theorem mem_map_clusterId_upsertReport (t : List AutoResharderSendData)
    (d : AutoResharderSendData) (c : Nat) (h : c ∈ t.map (·.clusterId)) :
    c ∈ (upsertReport t d).map (·.clusterId) := by
  rw [map_clusterId_upsertReport]
  by_cases hmem : d.clusterId ∈ t.map (·.clusterId) <;> simp [hmem, h]

theorem nodup_foldl_handleMessage (msgs : List ClusterMessage)
    (t : List AutoResharderSendData) (h : (t.map (·.clusterId)).Nodup) :
    ((msgs.foldl handleMessage t).map (·.clusterId)).Nodup := by
  induction msgs generalizing t with
  | nil => simpa using h
  | cons m ms ih =>
    cases m with
    | report d => exact ih _ (nodup_map_clusterId_upsertReport t d h)
    | otherMessage => exact ih _ h

theorem find?_foldl_handleMessage (msgs : List ClusterMessage)
    (t : List AutoResharderSendData) (c : Nat) :
    (msgs.foldl handleMessage t).find? (fun v => v.clusterId == c) =
      match lastReportOf c msgs with
      | some d => some d
      | none => t.find? (fun v => v.clusterId == c) := by
  induction msgs generalizing t with
  | nil => rfl
  | cons m ms ih =>
    cases m with
    | report d =>
      show (ms.foldl handleMessage (upsertReport t d)).find? _ = _
      rw [ih (upsertReport t d)]
      cases hlast : lastReportOf c ms with
      | some e => simp [lastReportOf, hlast]
      | none =>
        by_cases hc : d.clusterId = c
        · subst hc
          simp [lastReportOf, hlast, find?_upsertReport_self]
        · simp [lastReportOf, hlast, hc,
            find?_upsertReport_other t d c (fun h => hc h.symm)]
    | otherMessage =>
      show (ms.foldl handleMessage t).find? _ = _
      rw [ih t]
      cases hlast : lastReportOf c ms <;> simp [lastReportOf, hlast]

theorem mem_foldl_handleMessage (msgs : List ClusterMessage)
    (t : List AutoResharderSendData) (c : Nat) (h : c ∈ t.map (·.clusterId)) :
    c ∈ ((msgs.foldl handleMessage t).map (·.clusterId)) := by
  induction msgs generalizing t with
  | nil => simpa using h
  | cons m ms ih =>
    cases m with
    | report d => exact ih _ (mem_map_clusterId_upsertReport t d c h)
    | otherMessage => exact ih _ h

theorem rawShardEntryInvalid_eq_false_iff (e : RawShardData) :
    ((match e.guildCount with
      | .num g => decide (g < 0)
      | .notNum => true) ||
     (match e.shardId with
      | .num i => decide (i < 0)
      | .notNum => true)) = false ↔
      ((∃ i : Int, e.shardId = .num i ∧ 0 ≤ i) ∧
       (∃ g : Int, e.guildCount = .num g ∧ 0 ≤ g)) := by
  obtain ⟨si, gc⟩ := e
  cases si <;> cases gc <;> simp [Int.not_lt, and_comm]

theorem rawSendDataInvalid_eq_false_iff (d : RawSendData) :
    rawSendDataInvalid d = false ↔
      ((∃ n : Int, d.clusterId = .num n ∧ 0 ≤ n) ∧
        ∀ e ∈ d.shardData,
          (∃ i : Int, e.shardId = .num i ∧ 0 ≤ i) ∧
          (∃ g : Int, e.guildCount = .num g ∧ 0 ≤ g)) := by
  obtain ⟨c, sd⟩ := d
  unfold rawSendDataInvalid
  dsimp only
  rw [Bool.or_eq_false_iff, List.any_eq_false]
  constructor
  · rintro ⟨h1, h2⟩
    refine ⟨?_, fun e he => ?_⟩
    · cases c with
      | num n => exact ⟨n, rfl, by simpa [Int.not_lt] using h1⟩
      | notNum => simp at h1
    · have h := h2 e he
      rw [Bool.not_eq_true] at h
      exact (rawShardEntryInvalid_eq_false_iff e).mp h
  · rintro ⟨⟨n, hn, hn0⟩, hall⟩
    refine ⟨?_, fun e he => ?_⟩
    · rw [hn]
      simpa [Int.not_lt] using hn0
    · rw [Bool.not_eq_true]
      exact (rawShardEntryInvalid_eq_false_iff e).mpr (hall e he)

/-! ## Claim theorems -/

/-- C1: the spec says a decision cycle verifies the shard assignment in effect
is the contiguous `0..totalShards-1`, failing with `UnsupportedTopology` only
for a custom or sparse assignment and proceeding to the threshold scan for the
default one. The code is a slip: line 310 compares a freshly allocated key
array against `manager.shardList` with JS `!=`, which on two object operands
is a reference comparison and therefore true for every input — so once the
completeness guard is passed, every cycle throws the `RangeError`, even when
`shardList` is exactly the default contiguous assignment the thrown message
blames the user for not using. -/
theorem checkReCluster_topology_always_fails (s : ManagerState) (o : ManagerOptions)
    (recommended : Nat) (execResolved : Bool)
    (hcomplete : s.clusterListLength < s.clusterDatas.length) :
    (checkReCluster s o recommended execResolved).result = .unsupportedTopology := by
  unfold checkReCluster
  rw [if_neg (by omega)]
  rfl

/-- `checkReCluster_topology_always_fails` applied to a concrete state whose
shard list is exactly the default contiguous `0..totalShards-1`: the cycle is
past the completeness guard, the topology is the default, and the result is
still `unsupportedTopology`. -/
theorem checkReCluster_topology_always_fails_witness :
    (ManagerState.shardList
        { clusterDatas := [{ clusterId := 0, shardData := [{ shardId := 0, guildCount := 100 }] },
                           { clusterId := 1, shardData := [{ shardId := 1, guildCount := 100 }] }],
          isReClustering := false, clusterListLength := 1, totalShards := 2,
          shardList := [0, 1], shardsPerClusters := some 1, totalClusters := 2,
          hasRecluster := true } = List.range 2)
    ∧ (checkReCluster
        { clusterDatas := [{ clusterId := 0, shardData := [{ shardId := 0, guildCount := 100 }] },
                           { clusterId := 1, shardData := [{ shardId := 1, guildCount := 100 }] }],
          isReClustering := false, clusterListLength := 1, totalShards := 2,
          shardList := [0, 1], shardsPerClusters := some 1, totalClusters := 2,
          hasRecluster := true }
        defaultManagerOptions 0 true).result = .unsupportedTopology :=
  ⟨by decide,
   checkReCluster_topology_always_fails _ defaultManagerOptions 0 true (by decide)⟩

/-- C2: the spec says construction with the sentinel values the config type
permits — `ShardsPerCluster = useManagerOption`, or `MinGuildsPerShard = auto`
with `MaxGuildsPerShard > 2000` — passes the eager validation, and in
particular the default configuration succeeds. The code is a slip: in
`validate` the `else if (typeof x !== 'number' || ...)` branches also run on
the sentinel strings themselves, so the sentinel the preceding check just
allowed (and that the thrown message says is permitted) is rejected; since the
defaults use `useManagerOption`, constructing with the default configuration
always throws. A fully numeric configuration does validate. -/
theorem managerValidate_rejects_sentinels :
    managerValidate defaultManagerOptions true = some .shardsPerClusterOption
    ∧ managerValidate
        { defaultManagerOptions with
            ShardsPerCluster := .count 2, MinGuildsPerShard := .auto,
            MaxGuildsPerShard := 2100 } true = some .minGuildsOption
    ∧ managerValidate { defaultManagerOptions with ShardsPerCluster := .count 2 } true
        = none := by
  decide

/-- C3 counterexample: with 3 known workers and distinct reports from workers
0, 1 and 2 — exactly as many distinct reports as known workers — the claim
says the decision proceeds, but the guard `clusterDatas.length <=
clusterList.length` makes the cycle return at the early incomplete-data exit,
so worker 2's arrival does not trigger the engine. -/
theorem completeness_equal_counts_no_trigger :
    (processMessages
        [.report { clusterId := 0, shardData := [{ shardId := 0, guildCount := 50 }] },
         .report { clusterId := 1, shardData := [{ shardId := 1, guildCount := 50 }] },
         .report { clusterId := 2, shardData := [{ shardId := 2, guildCount := 50 }] }]).length = 3
    ∧ (checkReCluster
        { clusterDatas := processMessages
            [.report { clusterId := 0, shardData := [{ shardId := 0, guildCount := 50 }] },
             .report { clusterId := 1, shardData := [{ shardId := 1, guildCount := 50 }] },
             .report { clusterId := 2, shardData := [{ shardId := 2, guildCount := 50 }] }],
          isReClustering := false, clusterListLength := 3, totalShards := 3,
          shardList := [0, 1, 2], shardsPerClusters := some 1, totalClusters := 3,
          hasRecluster := true }
        defaultManagerOptions 0 true).result = .notAllData := by
  decide

/-- C3 amended: the decision cycle returns at the incomplete-data exit exactly
while the report table holds at most as many entries as there are known
workers, so it only proceeds past that guard once strictly more distinct
reports than known workers have accumulated — in particular, with fewer
reports than known workers it never fires, but with exactly as many (the
spec's 3-of-3 example) it does not fire either. -/
theorem completeness_guard_requires_strictly_more (s : ManagerState) (o : ManagerOptions)
    (recommended : Nat) (execResolved : Bool) :
    (checkReCluster s o recommended execResolved).result = .notAllData ↔
      s.clusterDatas.length ≤ s.clusterListLength := by
  unfold checkReCluster
  by_cases h : s.clusterDatas.length ≤ s.clusterListLength
  · simp [h]
  · simp [h, freshKeysArrayNotEqualShardList]

/-- `completeness_guard_requires_strictly_more` applied to a concrete
four-reports-three-workers state: only then is the incomplete-data exit
avoided. -/
theorem completeness_guard_requires_strictly_more_witness :
    (checkReCluster
        { clusterDatas :=
            [{ clusterId := 0, shardData := [] }, { clusterId := 1, shardData := [] },
             { clusterId := 2, shardData := [] }, { clusterId := 3, shardData := [] }],
          isReClustering := false, clusterListLength := 3, totalShards := 3,
          shardList := [0, 1, 2], shardsPerClusters := some 1, totalClusters := 3,
          hasRecluster := true }
        defaultManagerOptions 0 true).result ≠ .notAllData :=
  fun h =>
    absurd ((completeness_guard_requires_strictly_more _ defaultManagerOptions 0 true).mp h)
      (by decide)

/-- C4: the spec says a cycle entered while a rescale is in flight skips the
execution step, recording the attempt only as a debug log, so that at most one
executor invocation is in flight. The code is a slip: the in-progress check at
lines 306-308 contains only the debug log and no return, so it gates nothing —
on the concrete in-flight state below, the literal cycle aborts with the
(unconditional) topology `RangeError` rather than skipping, and with the
intended element-wise topology comparison the same in-flight cycle reaches the
executor and starts a second invocation. -/
theorem inflight_guard_does_not_skip_execution :
    (ManagerState.isReClustering
        { clusterDatas :=
            [{ clusterId := 0, shardData := [{ shardId := 0, guildCount := 1800 }] },
             { clusterId := 1, shardData := [{ shardId := 1, guildCount := 10 }] }],
          isReClustering := true, clusterListLength := 1, totalShards := 2,
          shardList := [0, 1], shardsPerClusters := some 1, totalClusters := 2,
          hasRecluster := true } = true)
    ∧ executorCalls (checkReClusterIntended
        { clusterDatas :=
            [{ clusterId := 0, shardData := [{ shardId := 0, guildCount := 1800 }] },
             { clusterId := 1, shardData := [{ shardId := 1, guildCount := 10 }] }],
          isReClustering := true, clusterListLength := 1, totalShards := 2,
          shardList := [0, 1], shardsPerClusters := some 1, totalClusters := 2,
          hasRecluster := true }
        defaultManagerOptions 0 true).result = 1
    ∧ (checkReCluster
        { clusterDatas :=
            [{ clusterId := 0, shardData := [{ shardId := 0, guildCount := 1800 }] },
             { clusterId := 1, shardData := [{ shardId := 1, guildCount := 10 }] }],
          isReClustering := true, clusterListLength := 1, totalShards := 2,
          shardList := [0, 1], shardsPerClusters := some 1, totalClusters := 2,
          hasRecluster := true }
        defaultManagerOptions 0 true).result = .unsupportedTopology := by
  decide

/-- C5 counterexample: the claim says a cycle that reaches execution marks
`Idle` again regardless of outcome, so that a failed rescale call also returns
the in-progress flag to `Idle`. On this concrete over-threshold state with a
rejecting executor, the execution path of `checkReCluster` (source lines
317-378) invokes the executor once with the flag set, and — because
`isReClustering = false` sits after the `await` with no `try`/`finally` — the
rejected call leaves the flag set to `Executing`, not `Idle`. -/
theorem failed_rescale_leaves_flag_executing :
    (thresholdAndExecute
        { clusterDatas :=
            [{ clusterId := 0, shardData := [{ shardId := 0, guildCount := 1800 }] },
             { clusterId := 1, shardData := [{ shardId := 1, guildCount := 10 }] }],
          isReClustering := false, clusterListLength := 1, totalShards := 2,
          shardList := [0, 1], shardsPerClusters := some 1, totalClusters := 2,
          hasRecluster := true }
        defaultManagerOptions 0 false).flagDuringCall = true
    ∧ executorCalls (thresholdAndExecute
        { clusterDatas :=
            [{ clusterId := 0, shardData := [{ shardId := 0, guildCount := 1800 }] },
             { clusterId := 1, shardData := [{ shardId := 1, guildCount := 10 }] }],
          isReClustering := false, clusterListLength := 1, totalShards := 2,
          shardList := [0, 1], shardsPerClusters := some 1, totalClusters := 2,
          hasRecluster := true }
        defaultManagerOptions 0 false).result = 1
    ∧ (thresholdAndExecute
        { clusterDatas :=
            [{ clusterId := 0, shardData := [{ shardId := 0, guildCount := 1800 }] },
             { clusterId := 1, shardData := [{ shardId := 1, guildCount := 10 }] }],
          isReClustering := false, clusterListLength := 1, totalShards := 2,
          shardList := [0, 1], shardsPerClusters := some 1, totalClusters := 2,
          hasRecluster := true }
        defaultManagerOptions 0 false).flagAfter = true := by
  decide

/-- C5 amended: every cycle that reaches execution sets the in-progress flag,
calls the executor exactly once and awaits it; when the call resolves the flag
returns to `Idle`, but when it rejects the clearing assignment after the
`await` is skipped and the flag remains `Executing`. -/
theorem execution_clears_flag_only_on_success (s : ManagerState) (o : ManagerOptions)
    (recommended : Nat)
    (hfound : (s.clusterDatas.find?
        (fun v => v.shardData.any
          (fun x => decide (x.guildCount ≥ o.MaxGuildsPerShard)))).isSome)
    (hrc : s.hasRecluster = true) :
    ∀ execResolved,
      (thresholdAndExecute s o recommended execResolved).flagDuringCall = true
      ∧ executorCalls (thresholdAndExecute s o recommended execResolved).result = 1
      ∧ (thresholdAndExecute s o recommended execResolved).flagAfter = !execResolved := by
  intro execResolved
  obtain ⟨v, hv⟩ := Option.isSome_iff_exists.mp hfound
  unfold thresholdAndExecute
  rw [hv, hrc]
  cases execResolved <;> exact ⟨rfl, rfl, rfl⟩

/-- `execution_clears_flag_only_on_success` applied to a concrete
over-threshold state: its two hypotheses hold there, the executor is invoked
once with the flag set, and the flag afterwards is the negation of the
executor outcome. -/
theorem execution_clears_flag_only_on_success_witness :
    (thresholdAndExecute
        { clusterDatas := [{ clusterId := 0, shardData := [{ shardId := 0, guildCount := 2000 }] },
                           { clusterId := 1, shardData := [] }],
          isReClustering := false, clusterListLength := 1, totalShards := 2,
          shardList := [0, 1], shardsPerClusters := none, totalClusters := 2,
          hasRecluster := true }
        defaultManagerOptions 0 true).flagDuringCall = true
    ∧ executorCalls (thresholdAndExecute
        { clusterDatas := [{ clusterId := 0, shardData := [{ shardId := 0, guildCount := 2000 }] },
                           { clusterId := 1, shardData := [] }],
          isReClustering := false, clusterListLength := 1, totalShards := 2,
          shardList := [0, 1], shardsPerClusters := none, totalClusters := 2,
          hasRecluster := true }
        defaultManagerOptions 0 true).result = 1
    ∧ (thresholdAndExecute
        { clusterDatas := [{ clusterId := 0, shardData := [{ shardId := 0, guildCount := 2000 }] },
                           { clusterId := 1, shardData := [] }],
          isReClustering := false, clusterListLength := 1, totalShards := 2,
          shardList := [0, 1], shardsPerClusters := none, totalClusters := 2,
          hasRecluster := true }
        defaultManagerOptions 0 true).flagAfter = !true :=
  execution_clears_flag_only_on_success _ defaultManagerOptions 0 (by decide) (by decide) true

/-- C6: the spec says `stop()` fails with `NotRunning` only when the Reporter
is not active and otherwise cancels the timer, clears running state and
succeeds. The code is a slip: the class declares `private started = false`
with the comment that it tracks whether the Reporter is running, but no code
path ever assigns it, so `stop()` throws `Not running!` even on a freshly
constructed client whose repeating timer is armed — the first call already
fails (after clearing the timer, so no further periodic sends occur), and so
does the second. -/
theorem stop_throws_not_running_despite_armed_timer :
    clientConstruct {} =
      .ok { options := defaultClientOptions, interval := some 60000, started := false }
    ∧ (Option.isSome (ClientState.interval
        { options := defaultClientOptions, interval := some 60000, started := false }) = true)
    ∧ (clientStop
        { options := defaultClientOptions, interval := some 60000, started := false }).2
        = .error .notRunning
    ∧ (clientStop
        { options := defaultClientOptions, interval := some 60000, started := false }).1.interval
        = none
    ∧ (clientStop (clientStop
        { options := defaultClientOptions, interval := some 60000, started := false }).1).2
        = .error .notRunning := by
  refine ⟨rfl, rfl, rfl, rfl, rfl⟩

/-- C7: the spec says `start()` fails with `AlreadyRunning` when the Reporter
is already active, and otherwise merges the override, validates, and arms the
timer. The code is a slip: `started` is never assigned, so `start()` on a
freshly constructed client — whose timer is armed and periodically sending —
does not throw `Already started`; it silently re-arms the timer, and because
`initialize` never calls `validate` (validation only happens inside
`sendData`), an override with `sendDataIntervalMS = 500 < 1000` is accepted
and armed when no immediate send is requested. -/
theorem start_never_throws_already_running :
    (clientStart
        { options := defaultClientOptions, interval := some 60000, started := false }
        { sendDataIntervalMS := some 500 } false emptyRaw).2 = .ok true
    ∧ (clientStart
        { options := defaultClientOptions, interval := some 60000, started := false }
        { sendDataIntervalMS := some 500 } false emptyRaw).1.options.sendDataIntervalMS = 500
    ∧ (clientStart
        { options := defaultClientOptions, interval := some 60000, started := false }
        { sendDataIntervalMS := some 500 } false emptyRaw).1.interval = some 500 := by
  refine ⟨rfl, rfl, rfl⟩

/-- C8: on a triggered rescale with a numeric `MinGuildsPerShard = m`, the
computed estimate `E` is the least count whose combined capacity `E * m`
covers the summed load of every shard in every current report (that is,
`⌈sum / m⌉`), the resulting new total is `E` itself when `E` exceeds the
current total `T` and the least count at least `1.2 * T` (that is,
`⌈6T/5⌉`) otherwise, and in either case the new total strictly exceeds `T`. -/
theorem shard_count_growth (datas : List AutoResharderSendData)
    (m T recommended E R : Nat) (hm : 0 < m) (hT : 1 ≤ T)
    (hE : E = newShardsCountOf
        { defaultManagerOptions with MinGuildsPerShard := .count m } datas recommended)
    (hR : R = realShardCountOf E T) :
    (sumGuilds datas ≤ E * m ∧ ∀ k, sumGuilds datas ≤ k * m → E ≤ k)
    ∧ (T < E → R = E)
    ∧ (E ≤ T → 6 * T ≤ 5 * R ∧ ∀ k, 6 * T ≤ 5 * k → R ≤ k)
    ∧ T < R := by
  have hE' : E = jsCeilDiv (sumGuilds datas) m := hE
  subst hR
  refine ⟨?_, ?_, ?_, ?_⟩
  · rw [hE']
    exact jsCeilDiv_spec hm _
  · intro h
    unfold realShardCountOf
    rw [if_pos h]
  · intro h
    unfold realShardCountOf
    rw [if_neg (by omega)]
    unfold ceilTimes1p2 jsCeilDiv
    exact ⟨by omega, fun k hk => by omega⟩
  · by_cases h : T < E
    · unfold realShardCountOf
      rw [if_pos h]
      exact h
    · unfold realShardCountOf
      rw [if_neg h]
      unfold ceilTimes1p2 jsCeilDiv
      omega

/-- `shard_count_growth` applied at the spec's own worked example: one report
summing to 3000 guilds, `MinGuildsPerShard = 1000`, current total `T = 4`; the
estimate is `E = 3`, which is not above `4`, so the new total is
`⌈4 * 1.2⌉ = 5`, and it strictly exceeds `4`. -/
theorem shard_count_growth_witness :
    (sumGuilds [{ clusterId := 0, shardData := [{ shardId := 0, guildCount := 3000 }] }]
        ≤ 3 * 1000
      ∧ ∀ k, sumGuilds [{ clusterId := 0, shardData := [{ shardId := 0, guildCount := 3000 }] }]
          ≤ k * 1000 → 3 ≤ k)
    ∧ (4 < 3 → 5 = 3)
    ∧ (3 ≤ 4 → 6 * 4 ≤ 5 * 5 ∧ ∀ k, 6 * 4 ≤ 5 * k → 5 ≤ k)
    ∧ 4 < 5 :=
  shard_count_growth
    [{ clusterId := 0, shardData := [{ shardId := 0, guildCount := 3000 }] }]
    1000 4 0 3 5 (by decide) (by decide) (by decide) (by decide)

/-- C9: the produced payload is validated before delivery — `sendData` returns
the tagged `CLIENT_AUTORESHARDER_SENDDATA` message exactly when the
`clusterId` is a non-negative number and every shard entry carries a
non-negative numeric `shardId` and a non-negative numeric `guildCount`, and
whenever the shape check fails (non-numeric or negative `clusterId`, negative
`shardId`, non-numeric `guildCount`, ...) the call throws the `SyntaxError`
and nothing is sent. -/
theorem report_shape_validated_before_delivery (raw : RawSendData) :
    (clientSendData defaultClientOptions raw =
        .ok { msgType := .CLIENT_AUTORESHARDER_SENDDATA, data := raw }
      ↔ ((∃ n : Int, raw.clusterId = .num n ∧ 0 ≤ n) ∧
          ∀ e ∈ raw.shardData,
            (∃ i : Int, e.shardId = .num i ∧ 0 ≤ i) ∧
            (∃ g : Int, e.guildCount = .num g ∧ 0 ≤ g)))
    ∧ (rawSendDataInvalid raw = true →
        clientSendData defaultClientOptions raw = .error .invalidSendData) := by
  have step : clientSendData defaultClientOptions raw =
      (if rawSendDataInvalid raw then .error .invalidSendData
       else .ok { msgType := .CLIENT_AUTORESHARDER_SENDDATA, data := raw }) := rfl
  constructor
  · rw [← rawSendDataInvalid_eq_false_iff raw, step]
    by_cases h : rawSendDataInvalid raw
    · simp [h]
    · simp [h]
  · intro h
    rw [step, if_pos h]

/-- `report_shape_validated_before_delivery` applied at two concrete payloads:
a well-formed report is delivered with the fixed tag, and a report whose only
shard entry has a negative `shardId` is rejected with the `SyntaxError`. -/
theorem report_shape_validated_before_delivery_witness :
    clientSendData defaultClientOptions
        { clusterId := .num 2, shardData := [{ shardId := .num 1, guildCount := .num 40 }] }
      = .ok { msgType := .CLIENT_AUTORESHARDER_SENDDATA,
              data := { clusterId := .num 2,
                        shardData := [{ shardId := .num 1, guildCount := .num 40 }] } }
    ∧ clientSendData defaultClientOptions
        { clusterId := .num 2, shardData := [{ shardId := .num (-1), guildCount := .num 40 }] }
      = .error .invalidSendData :=
  ⟨(report_shape_validated_before_delivery _).1.mpr
      ⟨⟨2, rfl, by decide⟩, by
        intro e he
        rw [List.mem_singleton] at he
        subst he
        exact ⟨⟨1, rfl, by decide⟩, ⟨40, rfl, by decide⟩⟩⟩,
   (report_shape_validated_before_delivery _).2 (by decide)⟩

/-- C10: starting from the fresh manager's empty table, after any sequence of
inbound messages the report table holds at most one entry per `clusterId`
(ignored non-report messages change nothing), the entry found for a
`clusterId` that has reported is exactly the most recently received report
from that cluster — insert if absent, replace in place if present — and an
entry, once present, is never removed by any further messages. -/
theorem report_table_upsert_invariant (msgs more : List ClusterMessage) :
    ((processMessages msgs).map (·.clusterId)).Nodup
    ∧ (∀ c d, lastReportOf c msgs = some d →
        (processMessages msgs).find? (fun v => v.clusterId == c) = some d)
    ∧ (∀ c, c ∈ (processMessages msgs).map (·.clusterId) →
        c ∈ (processMessages (msgs ++ more)).map (·.clusterId)) := by
  refine ⟨nodup_foldl_handleMessage msgs [] (by simp), ?_, ?_⟩
  · intro c d h
    have hfind := find?_foldl_handleMessage msgs [] c
    rw [h] at hfind
    exact hfind
  · intro c hc
    unfold processMessages
    rw [List.foldl_append]
    exact mem_foldl_handleMessage more _ c hc

/-- `report_table_upsert_invariant` applied to a concrete message sequence in
which cluster 0 reports, an unrelated message arrives, cluster 1 reports and
cluster 0 reports again: the entry found for cluster 0 is its second,
most recent report. -/
theorem report_table_upsert_invariant_witness :
    (processMessages
        [.report { clusterId := 0, shardData := [{ shardId := 0, guildCount := 5 }] },
         .otherMessage,
         .report { clusterId := 1, shardData := [{ shardId := 1, guildCount := 7 }] },
         .report { clusterId := 0, shardData := [{ shardId := 0, guildCount := 9 }] }]).find?
        (fun v => v.clusterId == 0)
      = some { clusterId := 0, shardData := [{ shardId := 0, guildCount := 9 }] } :=
  (report_table_upsert_invariant
      [.report { clusterId := 0, shardData := [{ shardId := 0, guildCount := 5 }] },
       .otherMessage,
       .report { clusterId := 1, shardData := [{ shardId := 1, guildCount := 7 }] },
       .report { clusterId := 0, shardData := [{ shardId := 0, guildCount := 9 }] }]
      []).2.1 0
    { clusterId := 0, shardData := [{ shardId := 0, guildCount := 9 }] } (by decide)

end AutoSharder
